import Mathlib

/-!
Shallow embedding of the `opus-rs` binding layer (`src/lib.rs`).

The crate is a safety/typing layer over the native libopus engine. The
native engine itself is an external collaborator; every native entry
point is modelled as an oracle (a function parameter or a field of an
environment structure), and the Rust-side logic — pre-call argument
checks, enum raw-integer encode/decode, status-code translation, length
guards, and call sequencing — is translated faithfully from the source.
Where a wrapper makes a native call, the embedding also records the
call (its name or its arguments), so that "a native call is made with
these arguments" is a provable statement.

Machine integers: the native `c_int` is a 32-bit signed integer; it is
modelled as `Int`, with the bound `2147483647` made explicit exactly
where the source checks it (`check_len`). A Rust `panic!` (used only by
`check_len`) is modelled as `Option.none`.
-/

instance {ε α : Type} [DecidableEq ε] [DecidableEq α] : DecidableEq (Except ε α) := fun x y =>
  match x, y with
  | .ok a, .ok b =>
    if h : a = b then .isTrue (by rw [h]) else .isFalse (by simp [h])
  | .error a, .error b =>
    if h : a = b then .isTrue (by rw [h]) else .isFalse (by simp [h])
  | .ok _, .error _ => .isFalse (by simp)
  | .error _, .ok _ => .isFalse (by simp)

namespace Opus

/-! Constants of the native Opus API (`opus_defines.h`), re-exported to
this crate by its ffi dependency. They are not defined in this
repository; the values below are the fixed, documented values of the
native interface. -/

def OPUS_OK : Int := 0

def OPUS_BAD_ARG : Int := -1

def OPUS_BUFFER_TOO_SMALL : Int := -2

def OPUS_INTERNAL_ERROR : Int := -3

def OPUS_INVALID_PACKET : Int := -4

def OPUS_UNIMPLEMENTED : Int := -5

def OPUS_INVALID_STATE : Int := -6

def OPUS_ALLOC_FAIL : Int := -7

def OPUS_AUTO : Int := -1000

def OPUS_BITRATE_MAX : Int := -1

def OPUS_BANDWIDTH_NARROWBAND : Int := 1101

def OPUS_BANDWIDTH_MEDIUMBAND : Int := 1102

def OPUS_BANDWIDTH_WIDEBAND : Int := 1103

def OPUS_BANDWIDTH_SUPERWIDEBAND : Int := 1104

def OPUS_BANDWIDTH_FULLBAND : Int := 1105

def OPUS_SIGNAL_VOICE : Int := 3001

def OPUS_SIGNAL_MUSIC : Int := 3002

def OPUS_FRAMESIZE_ARG : Int := 5000

def OPUS_FRAMESIZE_2_5_MS : Int := 5001

def OPUS_FRAMESIZE_5_MS : Int := 5002

def OPUS_FRAMESIZE_10_MS : Int := 5003

def OPUS_FRAMESIZE_20_MS : Int := 5004

def OPUS_FRAMESIZE_40_MS : Int := 5005

def OPUS_FRAMESIZE_60_MS : Int := 5006

def OPUS_FRAMESIZE_80_MS : Int := 5007

def OPUS_FRAMESIZE_100_MS : Int := 5008

def OPUS_FRAMESIZE_120_MS : Int := 5009

/-! `Application`: the values are `OPUS_APPLICATION_VOIP` (2048),
`OPUS_APPLICATION_AUDIO` (2049), `OPUS_APPLICATION_RESTRICTED_LOWDELAY`
(2051), written as literals below. -/

/-- The possible applications for the codec (`enum Application`,
`repr(i32)` with the ffi constant discriminants). -/
inductive Application where
  | Voip
  | Audio
  | LowDelay
  deriving DecidableEq

/-- The `repr(i32)` discriminant of `Application` (`mode as c_int`). -/
def Application.raw : Application → Int
  | .Voip => 2048
  | .Audio => 2049
  | .LowDelay => 2051

/-- The available channel settings (`enum Channels`, `Mono = 1`,
`Stereo = 2`). -/
inductive Channels where
  | Mono
  | Stereo
  deriving DecidableEq

/-- The discriminant of `Channels` (`channels as c_int`). -/
def Channels.raw : Channels → Int
  | .Mono => 1
  | .Stereo => 2

/-- The available bandwidth level settings (`enum Bandwidth`,
`repr(i32)` with the ffi constant discriminants). -/
inductive Bandwidth where
  | Auto
  | Narrowband
  | Mediumband
  | Wideband
  | Superwideband
  | Fullband
  deriving DecidableEq

/-- `Bandwidth::raw` (`self as i32`, the `repr(i32)` discriminant). -/
def Bandwidth.raw : Bandwidth → Int
  | .Auto => OPUS_AUTO
  | .Narrowband => OPUS_BANDWIDTH_NARROWBAND
  | .Mediumband => OPUS_BANDWIDTH_MEDIUMBAND
  | .Wideband => OPUS_BANDWIDTH_WIDEBAND
  | .Superwideband => OPUS_BANDWIDTH_SUPERWIDEBAND
  | .Fullband => OPUS_BANDWIDTH_FULLBAND

/-- `Bandwidth::from_int`. -/
def Bandwidth.from_int (value : Int) : Option Bandwidth :=
  if value = OPUS_AUTO then some .Auto
  else if value = OPUS_BANDWIDTH_NARROWBAND then some .Narrowband
  else if value = OPUS_BANDWIDTH_MEDIUMBAND then some .Mediumband
  else if value = OPUS_BANDWIDTH_WIDEBAND then some .Wideband
  else if value = OPUS_BANDWIDTH_SUPERWIDEBAND then some .Superwideband
  else if value = OPUS_BANDWIDTH_FULLBAND then some .Fullband
  else none

/-- Possible error codes (`enum ErrorCode`). -/
inductive ErrorCode where
  | BadArg
  | BufferTooSmall
  | InternalError
  | InvalidPacket
  | Unimplemented
  | InvalidState
  | AllocFail
  | Unknown
  deriving DecidableEq

/-- `ErrorCode::from_int`. -/
def ErrorCode.from_int (value : Int) : ErrorCode :=
  if value = OPUS_BAD_ARG then .BadArg
  else if value = OPUS_BUFFER_TOO_SMALL then .BufferTooSmall
  else if value = OPUS_INTERNAL_ERROR then .InternalError
  else if value = OPUS_INVALID_PACKET then .InvalidPacket
  else if value = OPUS_UNIMPLEMENTED then .Unimplemented
  else if value = OPUS_INVALID_STATE then .InvalidState
  else if value = OPUS_ALLOC_FAIL then .AllocFail
  else .Unknown

/-- An error generated by the Opus library (`struct Error`): the name of
the native function that failed plus the classified code. -/
structure Error where
  function : String
  code : ErrorCode
  deriving DecidableEq

/-- `Error::bad_arg`. -/
def Error.bad_arg (what : String) : Error :=
  { function := what, code := .BadArg }

/-- `Error::from_code`. -/
def Error.from_code (what : String) (code : Int) : Error :=
  { function := what, code := ErrorCode.from_int code }

/-- `opus::Result<T>`. -/
abbrev Result (α : Type) : Type := Except Error α

/-- Possible bitrates (`enum Bitrate`). -/
inductive Bitrate where
  | Bits : Int → Bitrate
  | Max
  | Auto
  deriving DecidableEq

/-- `Bitrate::from_raw`. Total: every raw value yields `Ok`. -/
def Bitrate.from_raw (raw : Int) : Result Bitrate :=
  .ok
    (if raw = OPUS_AUTO then .Auto
     else if raw = OPUS_BITRATE_MAX then .Max
     else .Bits raw)

/-- `Bitrate::raw`. -/
def Bitrate.raw : Bitrate → Int
  | .Auto => OPUS_AUTO
  | .Max => OPUS_BITRATE_MAX
  | .Bits raw => raw

/-- Possible signal types (`enum Signal`, `repr(i32)`). -/
inductive Signal where
  | Auto
  | Voice
  | Music
  deriving DecidableEq

/-- `Signal::raw` (`self as i32`). -/
def Signal.raw : Signal → Int
  | .Auto => OPUS_AUTO
  | .Voice => OPUS_SIGNAL_VOICE
  | .Music => OPUS_SIGNAL_MUSIC

/-- `Signal::from_raw`. -/
def Signal.from_raw (raw : Int) (what : String) : Result Signal :=
  if raw = OPUS_AUTO then .ok .Auto
  else if raw = OPUS_SIGNAL_VOICE then .ok .Voice
  else if raw = OPUS_SIGNAL_MUSIC then .ok .Music
  else .error (Error.bad_arg what)

/-- Possible frame sizes (`enum FrameSize`, `repr(i32)`). -/
inductive FrameSize where
  | Arg
  | Ms2_5
  | Ms5
  | Ms10
  | Ms20
  | Ms40
  | Ms60
  | Ms80
  | Ms100
  | Ms120
  deriving DecidableEq

/-- `FrameSize::raw` (`self as i32`). -/
def FrameSize.raw : FrameSize → Int
  | .Arg => OPUS_FRAMESIZE_ARG
  | .Ms2_5 => OPUS_FRAMESIZE_2_5_MS
  | .Ms5 => OPUS_FRAMESIZE_5_MS
  | .Ms10 => OPUS_FRAMESIZE_10_MS
  | .Ms20 => OPUS_FRAMESIZE_20_MS
  | .Ms40 => OPUS_FRAMESIZE_40_MS
  | .Ms60 => OPUS_FRAMESIZE_60_MS
  | .Ms80 => OPUS_FRAMESIZE_80_MS
  | .Ms100 => OPUS_FRAMESIZE_100_MS
  | .Ms120 => OPUS_FRAMESIZE_120_MS

/-- `FrameSize::from_raw`. -/
def FrameSize.from_raw (raw : Int) (what : String) : Result FrameSize :=
  if raw = OPUS_FRAMESIZE_ARG then .ok .Arg
  else if raw = OPUS_FRAMESIZE_2_5_MS then .ok .Ms2_5
  else if raw = OPUS_FRAMESIZE_5_MS then .ok .Ms5
  else if raw = OPUS_FRAMESIZE_10_MS then .ok .Ms10
  else if raw = OPUS_FRAMESIZE_20_MS then .ok .Ms20
  else if raw = OPUS_FRAMESIZE_40_MS then .ok .Ms40
  else if raw = OPUS_FRAMESIZE_60_MS then .ok .Ms60
  else if raw = OPUS_FRAMESIZE_80_MS then .ok .Ms80
  else if raw = OPUS_FRAMESIZE_100_MS then .ok .Ms100
  else if raw = OPUS_FRAMESIZE_120_MS then .ok .Ms120
  else .error (Error.bad_arg what)

/-- `Application::from_raw` (the application literals are the
`OPUS_APPLICATION_*` constants). -/
def Application.from_raw (raw : Int) (what : String) : Result Application :=
  if raw = 2048 then .ok .Voip
  else if raw = 2049 then .ok .Audio
  else if raw = 2051 then .ok .LowDelay
  else .error (Error.bad_arg what)

/-- `Bandwidth::decode`. -/
def Bandwidth.decode (value : Int) (what : String) : Result Bandwidth :=
  match Bandwidth.from_int value with
  | some bandwidth => .ok bandwidth
  | none => .error (Error.bad_arg what)

/-- `c_int::MAX` for the 32-bit native `c_int`. -/
def intMax : Nat := 2147483647

/-- `check_len`: `c_int::try_from(val)` succeeds exactly when `val`
fits in `c_int`; the `Err` arm is a `panic`, modelled as `none`. -/
def check_len (val : Nat) : Option Int :=
  if val ≤ intMax then some (val : Int) else none

/-- `len`: every slice length reaches the native boundary through
`check_len` of the slice's length. -/
def len {α : Type} (slice : List α) : Option Int :=
  check_len slice.length

/-- The `ffi!` macro: route a raw native status code; negative codes
become `Err(Error::from_code(name, code))`, other codes are the
successful result. -/
def ffiResult (name : String) (code : Int) : Result Int :=
  if code < 0 then .error (Error.from_code name code) else .ok code

/-- The `ctl!` macro: like `ffi!` but the successful code is discarded
(`_ => ()`); the failure is tagged with `"fn(CTL)"` built by the macro,
passed here as `name`. -/
def ctlResult (name : String) (code : Int) : Result Unit :=
  if code < 0 then .error (Error.from_code name code) else .ok ()

/-- `sample_rate as i32`: the Rust `u32 → i32` cast (two's complement
reinterpretation). -/
def u32_as_i32 (n : Nat) : Int :=
  if n % 2 ^ 32 < 2 ^ 31 then ((n % 2 ^ 32 : Nat) : Int)
  else ((n % 2 ^ 32 : Nat) : Int) - 2 ^ 32

/-! ### The generic CTL protocol (`generic_ctls!` / `encoder_ctls!` /
`decoder_ctls!`)

Each accessor issues one `ctl!` call: a set passes an encoded raw `i32`
payload, a get reads a raw `i32` out-parameter and decodes it. The
encode/decode logic below is translated from the accessor bodies in the
source. The native side of the protocol is the external engine. -/

/-- Modelled from the spec: the native control entry point
(`opus_encoder_ctl` / `opus_decoder_ctl`), which is not part of this
repository, holds one parameter slot per control request pair; a set
request stores its raw integer payload in the slot and the matching
get request returns exactly the stored raw value. The handle's
parameter state is that slot map. -/
def CtlState : Type := String → Int

/-- The native store of a set request's raw payload into its slot. -/
def CtlState.store (s : CtlState) (req : String) (v : Int) : CtlState :=
  fun r => if r = req then v else s r

/-- The native load of a slot by the matching get request. -/
def CtlState.load (s : CtlState) (req : String) : Int := s req

/-- `set_complexity`: raw payload is the value itself. -/
def set_complexity (s : CtlState) (value : Int) : CtlState :=
  s.store "COMPLEXITY" value

/-- `get_complexity`. -/
def get_complexity (s : CtlState) : Result Int :=
  .ok (s.load "COMPLEXITY")

/-- `set_bitrate`: raw payload is `value.raw()`. -/
def set_bitrate (s : CtlState) (value : Bitrate) : CtlState :=
  s.store "BITRATE" value.raw

/-- `get_bitrate`: decodes via `Bitrate::from_raw`. -/
def get_bitrate (s : CtlState) : Result Bitrate :=
  Bitrate.from_raw (s.load "BITRATE")

/-- `set_vbr`: `if vbr { 1 } else { 0 }`. -/
def set_vbr (s : CtlState) (vbr : Bool) : CtlState :=
  s.store "VBR" (if vbr then 1 else 0)

/-- `get_vbr`: `value != 0`. -/
def get_vbr (s : CtlState) : Result Bool :=
  .ok (s.load "VBR" ≠ 0)

/-- `set_vbr_constraint`. -/
def set_vbr_constraint (s : CtlState) (vbr : Bool) : CtlState :=
  s.store "VBR_CONSTRAINT" (if vbr then 1 else 0)

/-- `get_vbr_constraint`. -/
def get_vbr_constraint (s : CtlState) : Result Bool :=
  .ok (s.load "VBR_CONSTRAINT" ≠ 0)

/-- `set_force_channels`: `None => OPUS_AUTO`, `Mono => 1`,
`Stereo => 2`. -/
def set_force_channels (s : CtlState) (value : Option Channels) : CtlState :=
  s.store "FORCE_CHANNELS"
    (match value with
     | none => OPUS_AUTO
     | some .Mono => 1
     | some .Stereo => 2)

/-- `get_force_channels`: `OPUS_AUTO => None`, `1 => Mono`,
`2 => Stereo`, otherwise `BadArg`. -/
def get_force_channels (s : CtlState) : Result (Option Channels) :=
  if s.load "FORCE_CHANNELS" = OPUS_AUTO then .ok none
  else if s.load "FORCE_CHANNELS" = 1 then .ok (some .Mono)
  else if s.load "FORCE_CHANNELS" = 2 then .ok (some .Stereo)
  else .error (Error.bad_arg "opus_encoder_ctl(OPUS_GET_FORCE_CHANNELS)")

/-- `set_max_bandwidth`: raw payload is `bandwidth.raw()`. -/
def set_max_bandwidth (s : CtlState) (bandwidth : Bandwidth) : CtlState :=
  s.store "MAX_BANDWIDTH" bandwidth.raw

/-- `get_max_bandwidth`: decodes via `Bandwidth::decode`. -/
def get_max_bandwidth (s : CtlState) : Result Bandwidth :=
  Bandwidth.decode (s.load "MAX_BANDWIDTH")
    "opus_encoder_ctl(OPUS_GET_MAX_BANDWIDTH)"

/-- `set_signal`: raw payload is `signal.raw()`. -/
def set_signal (s : CtlState) (signal : Signal) : CtlState :=
  s.store "SIGNAL" signal.raw

/-- `get_signal`: decodes via `Signal::from_raw`. -/
def get_signal (s : CtlState) : Result Signal :=
  Signal.from_raw (s.load "SIGNAL") "opus_encoder_ctl(OPUS_GET_SIGNAL)"

/-- `set_application`: raw payload is `application as i32`. -/
def set_application (s : CtlState) (application : Application) : CtlState :=
  s.store "APPLICATION" application.raw

/-- `get_application`: decodes via `Application::from_raw`. -/
def get_application (s : CtlState) : Result Application :=
  Application.from_raw (s.load "APPLICATION")
    "opus_encoder_ctl(OPUS_GET_APPLICATION)"

/-- `set_inband_fec`. -/
def set_inband_fec (s : CtlState) (value : Bool) : CtlState :=
  s.store "INBAND_FEC" (if value then 1 else 0)

/-- `get_inband_fec`. -/
def get_inband_fec (s : CtlState) : Result Bool :=
  .ok (s.load "INBAND_FEC" ≠ 0)

/-- `set_packet_loss_perc`. -/
def set_packet_loss_perc (s : CtlState) (value : Int) : CtlState :=
  s.store "PACKET_LOSS_PERC" value

/-- `get_packet_loss_perc`. -/
def get_packet_loss_perc (s : CtlState) : Result Int :=
  .ok (s.load "PACKET_LOSS_PERC")

/-- `set_dtx`. -/
def set_dtx (s : CtlState) (value : Bool) : CtlState :=
  s.store "DTX" (if value then 1 else 0)

/-- `get_dtx`. -/
def get_dtx (s : CtlState) : Result Bool :=
  .ok (s.load "DTX" ≠ 0)

/-- `set_lsb_depth`. -/
def set_lsb_depth (s : CtlState) (depth : Int) : CtlState :=
  s.store "LSB_DEPTH" depth

/-- `get_lsb_depth`. -/
def get_lsb_depth (s : CtlState) : Result Int :=
  .ok (s.load "LSB_DEPTH")

/-- `set_expert_frame_duration`: raw payload is `framesize.raw()`. -/
def set_expert_frame_duration (s : CtlState) (framesize : FrameSize) : CtlState :=
  s.store "EXPERT_FRAME_DURATION" framesize.raw

/-- `get_expert_frame_duration`: decodes via `FrameSize::from_raw`. -/
def get_expert_frame_duration (s : CtlState) : Result FrameSize :=
  FrameSize.from_raw (s.load "EXPERT_FRAME_DURATION")
    "opus_encoder_ctl(OPUS_GET_EXPERT_FRAME_DURATION)"

/-- `set_prediction_disabled`. -/
def set_prediction_disabled (s : CtlState) (disabled : Bool) : CtlState :=
  s.store "PREDICTION_DISABLED" (if disabled then 1 else 0)

/-- `get_prediction_disabled`. -/
def get_prediction_disabled (s : CtlState) : Result Bool :=
  .ok (s.load "PREDICTION_DISABLED" ≠ 0)

/-- `set_phase_inversion_disabled` (generic CTL family). -/
def set_phase_inversion_disabled (s : CtlState) (disabled : Bool) : CtlState :=
  s.store "PHASE_INVERSION_DISABLED" (if disabled then 1 else 0)

/-- `get_phase_inversion_disabled`. -/
def get_phase_inversion_disabled (s : CtlState) : Result Bool :=
  .ok (s.load "PHASE_INVERSION_DISABLED" ≠ 0)

/-- `set_gain` (decoder CTL family). -/
def set_gain (s : CtlState) (gain : Int) : CtlState :=
  s.store "GAIN" gain

/-- `get_gain`. -/
def get_gain (s : CtlState) : Result Int :=
  .ok (s.load "GAIN")

/-! ### Packet analysis (`mod packet`)

Each wrapper returns its result together with the list of native
packet functions it invoked, so that "rejected before any native call"
is the statement that the list is empty. Wrappers whose arguments pass
through `len` may panic on oversized slices (`Option`). -/

/-- The native standalone packet functions, as oracles. Byte slices are
lists of byte values. -/
structure PacketEnv where
  opus_packet_get_bandwidth : List Nat → Int
  opus_packet_get_nb_channels : List Nat → Int
  opus_packet_get_nb_frames : List Nat → Int → Int
  opus_packet_get_nb_samples : List Nat → Int → Int → Int
  opus_packet_get_samples_per_frame : List Nat → Int → Int

/-- `packet::get_bandwidth`: explicit empty-packet check, then the
native call, then `Bandwidth::decode`. -/
def packet.get_bandwidth (env : PacketEnv) (packet : List Nat) :
    Result Bandwidth × List String :=
  if packet.isEmpty then
    (.error (Error.bad_arg "opus_packet_get_bandwidth"), [])
  else
    (match ffiResult "opus_packet_get_bandwidth"
        (env.opus_packet_get_bandwidth packet) with
     | .error e => .error e
     | .ok bandwidth => Bandwidth.decode bandwidth "opus_packet_get_bandwidth",
     ["opus_packet_get_bandwidth"])

/-- `packet::get_nb_channels`: explicit empty-packet check, then the
native call, then the 1/2 match. -/
def packet.get_nb_channels (env : PacketEnv) (packet : List Nat) :
    Result Channels × List String :=
  if packet.isEmpty then
    (.error (Error.bad_arg "opus_packet_get_nb_channels"), [])
  else
    (match ffiResult "opus_packet_get_nb_channels"
        (env.opus_packet_get_nb_channels packet) with
     | .error e => .error e
     | .ok channels =>
       if channels = 1 then .ok .Mono
       else if channels = 2 then .ok .Stereo
       else .error (Error.bad_arg "opus_packet_get_nb_channels"),
     ["opus_packet_get_nb_channels"])

/-- `packet::get_nb_frames`: no empty-packet check in the source; the
packet (with `len(packet)`) goes straight to the native call. -/
def packet.get_nb_frames (env : PacketEnv) (packet : List Nat) :
    Option (Result Nat × List String) :=
  (len packet).map fun l =>
    (match ffiResult "opus_packet_get_nb_frames"
        (env.opus_packet_get_nb_frames packet l) with
     | .error e => .error e
     | .ok frames => .ok frames.toNat,
     ["opus_packet_get_nb_frames"])

/-- `packet::get_nb_samples`: no empty-packet check in the source. -/
def packet.get_nb_samples (env : PacketEnv) (packet : List Nat)
    (sample_rate : Nat) : Option (Result Nat × List String) :=
  (len packet).map fun l =>
    (match ffiResult "opus_packet_get_nb_samples"
        (env.opus_packet_get_nb_samples packet l (u32_as_i32 sample_rate)) with
     | .error e => .error e
     | .ok frames => .ok frames.toNat,
     ["opus_packet_get_nb_samples"])

/-- `packet::get_samples_per_frame`: explicit empty-packet check, then
the native call. -/
def packet.get_samples_per_frame (env : PacketEnv) (packet : List Nat)
    (sample_rate : Nat) : Result Nat × List String :=
  if packet.isEmpty then
    (.error (Error.bad_arg "opus_packet_get_samples_per_frame"), [])
  else
    (match ffiResult "opus_packet_get_samples_per_frame"
        (env.opus_packet_get_samples_per_frame packet (u32_as_i32 sample_rate)) with
     | .error e => .error e
     | .ok samples => .ok samples.toNat,
     ["opus_packet_get_samples_per_frame"])

/-! ### Constructors (`new`)

The native creators are oracles returning the pair (returned pointer is
null, value left in the `error` out-parameter, which the binding
initializes to 0). -/

/-- The native creation entry points, as oracles: each yields
(ptr is null, error out-parameter). -/
structure CreateEnv where
  opus_encoder_create : Int → Int → Int → Bool × Int
  opus_decoder_create : Int → Int → Bool × Int
  opus_multistream_encoder_create : Int → Int → Int → Int → List Nat → Int → Bool × Int
  opus_multistream_decoder_create : Int → Int → Int → Int → List Nat → Bool × Int
  opus_repacketizer_create : Bool

/-- An Opus encoder handle (`struct Encoder`, sans the opaque native
pointer): remembers the channel count fixed at construction. -/
structure Encoder where
  channels : Channels
  deriving DecidableEq

/-- An Opus decoder handle (`struct Decoder`). -/
structure Decoder where
  channels : Channels
  deriving DecidableEq

/-- A multistream encoder handle (`struct MSEncoder`): its channel count
is `len(mapping)` as a `c_int`. -/
structure MSEncoder where
  channels : Int
  deriving DecidableEq

/-- A multistream decoder handle (`struct MSDecoder`). -/
structure MSDecoder where
  channels : Int
  deriving DecidableEq

/-- `Encoder::new`. -/
def Encoder.new (env : CreateEnv) (sample_rate : Nat) (channels : Channels)
    (mode : Application) : Result Encoder :=
  let r := env.opus_encoder_create (u32_as_i32 sample_rate) channels.raw mode.raw
  if r.2 ≠ OPUS_OK ∨ r.1 then .error (Error.from_code "opus_encoder_create" r.2)
  else .ok { channels := channels }

/-- `Decoder::new`. -/
def Decoder.new (env : CreateEnv) (sample_rate : Nat) (channels : Channels) :
    Result Decoder :=
  let r := env.opus_decoder_create (u32_as_i32 sample_rate) channels.raw
  if r.2 ≠ OPUS_OK ∨ r.1 then .error (Error.from_code "opus_decoder_create" r.2)
  else .ok { channels := channels }

/-- `MSEncoder::new`; `streams` and `coupled_streams` are `u8`. -/
def MSEncoder.new (env : CreateEnv) (sample_rate : Nat) (streams : Nat)
    (coupled_streams : Nat) (mapping : List Nat) (application : Application) :
    Option (Result MSEncoder) :=
  (len mapping).map fun ml =>
    let r := env.opus_multistream_encoder_create (u32_as_i32 sample_rate) ml
      (streams : Int) (coupled_streams : Int) mapping application.raw
    if r.2 ≠ OPUS_OK ∨ r.1 then
      .error (Error.from_code "opus_multistream_encoder_create" r.2)
    else .ok { channels := ml }

/-- `MSDecoder::new`. -/
def MSDecoder.new (env : CreateEnv) (sample_rate : Nat) (streams : Nat)
    (coupled_streams : Nat) (mapping : List Nat) :
    Option (Result MSDecoder) :=
  (len mapping).map fun ml =>
    let r := env.opus_multistream_decoder_create (u32_as_i32 sample_rate) ml
      (streams : Int) (coupled_streams : Int) mapping
    if r.2 ≠ OPUS_OK ∨ r.1 then
      .error (Error.from_code "opus_multistream_decoder_create" r.2)
    else .ok { channels := ml }

/-- `Repacketizer::new`: the native creator has no error out-parameter;
a null pointer is reported as `OPUS_ALLOC_FAIL` explicitly. -/
def Repacketizer.new (env : CreateEnv) : Result Unit :=
  if env.opus_repacketizer_create then
    .error (Error.from_code "opus_repacketizer_create" OPUS_ALLOC_FAIL)
  else .ok ()

/-! ### Transform operations (`encode` / `decode`)

Each wrapper records the scalar arguments it hands to the native call,
so the frame-size arithmetic is a provable statement. PCM `i16` samples
are `Int`; `f32` samples are opaque bit patterns. -/

/-- An opaque 32-bit float sample: at the binding layer only its bit
pattern exists (no float arithmetic happens in this crate). -/
structure F32 where
  bits : Nat
  deriving DecidableEq

/-- The native encode entry points, as oracles over (pcm, frame_size,
max_data_bytes). -/
structure EncodeEnv where
  opus_encode : List Int → Int → Int → Int
  opus_encode_float : List F32 → Int → Int → Int

/-- The scalar arguments of one native encode call. -/
structure EncodeCall where
  frame_size : Int
  max_data_bytes : Int
  deriving DecidableEq

/-- `Encoder::encode`: frame size is `len(input) / channels`; a
non-negative code is the produced byte count. -/
def Encoder.encode (env : EncodeEnv) (e : Encoder) (input : List Int)
    (outputLen : Nat) : Option (Result Nat × EncodeCall) :=
  match len input, check_len outputLen with
  | some inLen, some outLen =>
    let frameSize := inLen / e.channels.raw
    some
      (match ffiResult "opus_encode" (env.opus_encode input frameSize outLen) with
       | .error er => .error er
       | .ok l => .ok l.toNat,
       { frame_size := frameSize, max_data_bytes := outLen })
  | _, _ => none

/-- `Encoder::encode_float`. -/
def Encoder.encode_float (env : EncodeEnv) (e : Encoder) (input : List F32)
    (outputLen : Nat) : Option (Result Nat × EncodeCall) :=
  match len input, check_len outputLen with
  | some inLen, some outLen =>
    let frameSize := inLen / e.channels.raw
    some
      (match ffiResult "opus_encode_float"
          (env.opus_encode_float input frameSize outLen) with
       | .error er => .error er
       | .ok l => .ok l.toNat,
       { frame_size := frameSize, max_data_bytes := outLen })
  | _, _ => none

/-- The native decode entry points, as oracles over (packet pointer —
`none` is the null pointer —, packet length, frame_size capacity,
decode_fec flag). -/
structure DecodeEnv where
  opus_decode : Option (List Nat) → Int → Int → Int → Int
  opus_decode_float : Option (List Nat) → Int → Int → Int → Int
  opus_multistream_decode : Option (List Nat) → Int → Int → Int → Int
  opus_multistream_decode_float : Option (List Nat) → Int → Int → Int → Int
  opus_decoder_get_nb_samples : List Nat → Int → Int

/-- The arguments of one native decode call. -/
structure DecodeCall where
  packet : Option (List Nat)
  input_len : Int
  frame_size : Int
  decode_fec : Int
  deriving DecidableEq

/-- `Decoder::decode`: an empty input becomes the null packet pointer;
frame size is `len(output) / channels`; a non-negative code is the
per-channel sample count. -/
def Decoder.decode (env : DecodeEnv) (d : Decoder) (input : List Nat)
    (outputLen : Nat) (fec : Bool) : Option (Result Nat × DecodeCall) :=
  let ptr := if input.length = 0 then none else some input
  match len input, check_len outputLen with
  | some inLen, some outLen =>
    let frameSize := outLen / d.channels.raw
    let fecInt : Int := if fec then 1 else 0
    some
      (match ffiResult "opus_decode" (env.opus_decode ptr inLen frameSize fecInt) with
       | .error er => .error er
       | .ok l => .ok l.toNat,
       { packet := ptr, input_len := inLen, frame_size := frameSize,
         decode_fec := fecInt })
  | _, _ => none

/-- `Decoder::decode_float`. -/
def Decoder.decode_float (env : DecodeEnv) (d : Decoder) (input : List Nat)
    (outputLen : Nat) (fec : Bool) : Option (Result Nat × DecodeCall) :=
  let ptr := if input.length = 0 then none else some input
  match len input, check_len outputLen with
  | some inLen, some outLen =>
    let frameSize := outLen / d.channels.raw
    let fecInt : Int := if fec then 1 else 0
    some
      (match ffiResult "opus_decode_float"
          (env.opus_decode_float ptr inLen frameSize fecInt) with
       | .error er => .error er
       | .ok l => .ok l.toNat,
       { packet := ptr, input_len := inLen, frame_size := frameSize,
         decode_fec := fecInt })
  | _, _ => none

/-- `packet.len() as i32` in `Decoder::get_nb_samples`: the Rust
`usize → i32` wrapping cast, with no range check. -/
def usize_as_i32 (n : Nat) : Int :=
  u32_as_i32 n

/-- `Decoder::get_nb_samples`: the one native-boundary length that does
not go through `check_len`/`len` — the source passes
`packet.len() as i32`, a wrapping cast, so there is no panic path. -/
def Decoder.get_nb_samples (env : DecodeEnv) (d : Decoder) (packet : List Nat) :
    Result Nat :=
  match ffiResult "opus_decoder_get_nb_samples"
      (env.opus_decoder_get_nb_samples packet (usize_as_i32 packet.length)) with
  | .error e => .error e
  | .ok l => .ok l.toNat

/-- `MSDecoder::decode`: like `Decoder::decode`, but the channel count
is the `c_int` fixed at construction; the Rust integer division
`len(output) / self.channels` panics when that count is 0, modelled as
`none`. -/
def MSDecoder.decode (env : DecodeEnv) (d : MSDecoder) (input : List Nat)
    (outputLen : Nat) (fec : Bool) : Option (Result Nat × DecodeCall) :=
  let ptr := if input.length = 0 then none else some input
  match len input, check_len outputLen with
  | some inLen, some outLen =>
    if d.channels = 0 then none
    else
      let frameSize := outLen / d.channels
      let fecInt : Int := if fec then 1 else 0
      some
        (match ffiResult "opus_multistream_decode"
            (env.opus_multistream_decode ptr inLen frameSize fecInt) with
         | .error er => .error er
         | .ok l => .ok l.toNat,
         { packet := ptr, input_len := inLen, frame_size := frameSize,
           decode_fec := fecInt })
  | _, _ => none

/-- `MSDecoder::decode_float`: same shape as `MSDecoder::decode`. -/
def MSDecoder.decode_float (env : DecodeEnv) (d : MSDecoder) (input : List Nat)
    (outputLen : Nat) (fec : Bool) : Option (Result Nat × DecodeCall) :=
  let ptr := if input.length = 0 then none else some input
  match len input, check_len outputLen with
  | some inLen, some outLen =>
    if d.channels = 0 then none
    else
      let frameSize := outLen / d.channels
      let fecInt : Int := if fec then 1 else 0
      some
        (match ffiResult "opus_multistream_decode_float"
            (env.opus_multistream_decode_float ptr inLen frameSize fecInt) with
         | .error er => .error er
         | .ok l => .ok l.toNat,
         { packet := ptr, input_len := inLen, frame_size := frameSize,
           decode_fec := fecInt })
  | _, _ => none

/-! ### Repacketizer -/

/-- Modelled from the spec: the native repacketizer state (not part of
this repository) is the ordered sequence of packets concatenated since
the last init; a failed concatenation leaves it unchanged, an init
empties it. The wrappers below are translated from the source. -/
abbrev RpState : Type := List (List Nat)

/-- The native repacketizer entry points, as oracles over the modelled
native state. -/
structure RpEnv where
  opus_repacketizer_cat : RpState → List Nat → Int
  opus_repacketizer_out : RpState → Int → Int

/-- `RepacketizerState::cat`: one native cat call; on success the packet
is appended to the native state. -/
def RepacketizerState.cat (env : RpEnv) (s : RpState) (packet : List Nat) :
    Option (Result Unit × RpState) :=
  (len packet).map fun _ =>
    match ffiResult "opus_repacketizer_cat" (env.opus_repacketizer_cat s packet) with
    | .error e => (.error e, s)
    | .ok _ => (.ok (), s ++ [packet])

/-- `RepacketizerState::out`: emit from the accumulated state; the state
is unchanged. -/
def RepacketizerState.out (env : RpEnv) (s : RpState) (bufferLen : Nat) :
    Option (Result Nat × RpState) :=
  (check_len bufferLen).map fun bl =>
    match ffiResult "opus_repacketizer_out" (env.opus_repacketizer_out s bl) with
    | .error e => (.error e, s)
    | .ok result => (.ok result.toNat, s)

/-- `Repacketizer::begin`: `opus_repacketizer_init` resets the native
state. -/
def Repacketizer.begin : RpState := []

/-- The `for` loop inside `Repacketizer::combine`: `cat` each packet,
returning at the first error (`?`). -/
def Repacketizer.catLoop (env : RpEnv) (s : RpState) :
    List (List Nat) → Option (Result Unit × RpState)
  | [] => some (.ok (), s)
  | p :: rest =>
    match RepacketizerState.cat env s p with
    | none => none
    | some (.error e, s2) => some (.error e, s2)
    | some (.ok _, s2) => Repacketizer.catLoop env s2 rest

/-- `Repacketizer::combine`: begin, the cat loop, then out. -/
def Repacketizer.combine (env : RpEnv) (input : List (List Nat))
    (outputLen : Nat) : Option (Result Nat × RpState) :=
  match Repacketizer.catLoop env Repacketizer.begin input with
  | none => none
  | some (.error e, s) => some (.error e, s)
  | some (.ok _, s) => RepacketizerState.out env s outputLen

/-- One step of the spec's explicit sequence: propagate a panic or the
first error, otherwise `cat` the next packet. -/
def specStep (env : RpEnv) (acc : Option (Result Unit × RpState))
    (p : List Nat) : Option (Result Unit × RpState) :=
  match acc with
  | none => none
  | some (.error e, s) => some (.error e, s)
  | some (.ok _, s) => RepacketizerState.cat env s p

/-- The explicit sequence of the claim, stated independently of
`combine`: `begin()`, then `cat(p)` for each packet in order stopping
at the first error, then `out(buffer)`. -/
def beginCatOut (env : RpEnv) (input : List (List Nat)) (outputLen : Nat) :
    Option (Result Nat × RpState) :=
  match input.foldl (specStep env) (some (.ok (), Repacketizer.begin)) with
  | none => none
  | some (.error e, s) => some (.error e, s)
  | some (.ok _, s) => RepacketizerState.out env s outputLen

/-! ### Concrete native environments, used by witnesses and
counterexamples. Their packet/status behaviour follows the native
contract where it matters (e.g. `OPUS_BAD_ARG` on a zero-length
packet). -/

/-- A conforming concrete packet oracle. -/
def packetStub : PacketEnv where
  opus_packet_get_bandwidth := fun _ => OPUS_BANDWIDTH_FULLBAND
  opus_packet_get_nb_channels := fun _ => 1
  opus_packet_get_nb_frames := fun _ l => if l < 1 then OPUS_BAD_ARG else 1
  opus_packet_get_nb_samples := fun _ l _ => if l < 1 then OPUS_BAD_ARG else 960
  opus_packet_get_samples_per_frame := fun _ _ => 960

/-- A concrete creation oracle whose creators return a null pointer
while leaving the error out-parameter untouched at 0 (`OPUS_OK`). -/
def createNullStub : CreateEnv where
  opus_encoder_create := fun _ _ _ => (true, 0)
  opus_decoder_create := fun _ _ => (true, 0)
  opus_multistream_encoder_create := fun _ _ _ _ _ _ => (true, 0)
  opus_multistream_decoder_create := fun _ _ _ _ _ => (true, 0)
  opus_repacketizer_create := true

/-- A concrete decode oracle that fills the offered frame capacity
(the packet-loss-concealment behaviour the native contract promises). -/
def decodeStub : DecodeEnv where
  opus_decode := fun _ _ frameSize _ => frameSize
  opus_decode_float := fun _ _ frameSize _ => frameSize
  opus_multistream_decode := fun _ _ frameSize _ => frameSize
  opus_multistream_decode_float := fun _ _ frameSize _ => frameSize
  opus_decoder_get_nb_samples := fun _ _ => 960

/-- A concrete encode oracle producing a 3-byte packet. -/
def encodeStub : EncodeEnv where
  opus_encode := fun _ _ _ => 3
  opus_encode_float := fun _ _ _ => 3

/-- The all-zero parameter store. -/
def ctlZero : CtlState := fun _ => 0

end Opus

namespace Opus

/-! ## Theorems -/

/-- Loading the slot a set request just stored returns its payload. -/
theorem CtlState.load_store (s : CtlState) (req : String) (v : Int) :
    (s.store req v).load req = v := by
  simp [CtlState.store, CtlState.load]

/-- C3: the `ffi!`/`ctl!` macros turn every negative native status code
into `Err(Error{function, code})` with the operation name attached and
treat every non-negative code as the successful result; the
classification `ErrorCode::from_int` maps each of the seven documented
codes −1 … −7 to its named kind and every other negative value to
`Unknown`. -/
theorem c3_status_translation (name : String) (code : Int) :
    (code < 0 →
      ffiResult name code = .error { function := name, code := ErrorCode.from_int code } ∧
      ctlResult name code = .error { function := name, code := ErrorCode.from_int code }) ∧
    (0 ≤ code →
      ffiResult name code = .ok code ∧ ctlResult name code = .ok ()) ∧
    ErrorCode.from_int (-1) = .BadArg ∧
    ErrorCode.from_int (-2) = .BufferTooSmall ∧
    ErrorCode.from_int (-3) = .InternalError ∧
    ErrorCode.from_int (-4) = .InvalidPacket ∧
    ErrorCode.from_int (-5) = .Unimplemented ∧
    ErrorCode.from_int (-6) = .InvalidState ∧
    ErrorCode.from_int (-7) = .AllocFail ∧
    (code < -7 → ErrorCode.from_int code = .Unknown) := by
  refine ⟨?_, ?_, by decide, by decide, by decide, by decide, by decide,
    by decide, by decide, ?_⟩
  · intro h
    constructor
    · simp [ffiResult, if_pos h, Error.from_code]
    · simp [ctlResult, if_pos h, Error.from_code]
  · intro h
    have h2 : ¬ code < 0 := not_lt.2 h
    exact ⟨by simp [ffiResult, h2], by simp [ctlResult, h2]⟩
  · intro h
    simp only [ErrorCode.from_int, OPUS_BAD_ARG, OPUS_BUFFER_TOO_SMALL,
      OPUS_INTERNAL_ERROR, OPUS_INVALID_PACKET, OPUS_UNIMPLEMENTED,
      OPUS_INVALID_STATE, OPUS_ALLOC_FAIL]
    rw [if_neg (by omega), if_neg (by omega), if_neg (by omega),
      if_neg (by omega), if_neg (by omega), if_neg (by omega),
      if_neg (by omega)]

/-- C3 witness: the translation at `opus_encode` with code −3, and at
code 2; the catch-all at −42. -/
theorem c3_status_translation_witness :
    (ffiResult "opus_encode" (-3) =
      .error { function := "opus_encode", code := ErrorCode.from_int (-3) } ∧
     ctlResult "opus_encode" (-3) =
      .error { function := "opus_encode", code := ErrorCode.from_int (-3) }) ∧
    (ffiResult "opus_encode" 2 = .ok 2 ∧ ctlResult "opus_encode" 2 = .ok ()) ∧
    ErrorCode.from_int (-42) = .Unknown :=
  ⟨(c3_status_translation "opus_encode" (-3)).1 (by decide),
   (c3_status_translation "opus_encode" 2).2.1 (by decide),
   (c3_status_translation "opus_encode" (-42)).2.2.2.2.2.2.2.2.2 (by decide)⟩

/-- C4: every raw integer outside the known constant set of
`Bandwidth`, `Application`, `Signal`, `FrameSize` decodes to a `BadArg`
error (the decoders are total functions, so no panic, and the error
branch excludes any enum variant). -/
theorem c4_unknown_raw_badarg (v : Int) (what : String) :
    (v ∉ ([OPUS_AUTO, OPUS_BANDWIDTH_NARROWBAND, OPUS_BANDWIDTH_MEDIUMBAND,
        OPUS_BANDWIDTH_WIDEBAND, OPUS_BANDWIDTH_SUPERWIDEBAND,
        OPUS_BANDWIDTH_FULLBAND] : List Int) →
      Bandwidth.decode v what = .error (Error.bad_arg what)) ∧
    (v ∉ ([2048, 2049, 2051] : List Int) →
      Application.from_raw v what = .error (Error.bad_arg what)) ∧
    (v ∉ ([OPUS_AUTO, OPUS_SIGNAL_VOICE, OPUS_SIGNAL_MUSIC] : List Int) →
      Signal.from_raw v what = .error (Error.bad_arg what)) ∧
    (v ∉ ([OPUS_FRAMESIZE_ARG, OPUS_FRAMESIZE_2_5_MS, OPUS_FRAMESIZE_5_MS,
        OPUS_FRAMESIZE_10_MS, OPUS_FRAMESIZE_20_MS, OPUS_FRAMESIZE_40_MS,
        OPUS_FRAMESIZE_60_MS, OPUS_FRAMESIZE_80_MS, OPUS_FRAMESIZE_100_MS,
        OPUS_FRAMESIZE_120_MS] : List Int) →
      FrameSize.from_raw v what = .error (Error.bad_arg what)) := by
  refine ⟨?_, ?_, ?_, ?_⟩
  · intro h
    simp only [List.mem_cons, List.not_mem_nil, or_false, not_or] at h
    obtain ⟨h1, h2, h3, h4, h5, h6⟩ := h
    have hf : Bandwidth.from_int v = none := by
      simp only [Bandwidth.from_int]
      rw [if_neg h1, if_neg h2, if_neg h3, if_neg h4, if_neg h5, if_neg h6]
    simp [Bandwidth.decode, hf]
  · intro h
    simp only [List.mem_cons, List.not_mem_nil, or_false, not_or] at h
    obtain ⟨h1, h2, h3⟩ := h
    simp only [Application.from_raw]
    rw [if_neg h1, if_neg h2, if_neg h3]
  · intro h
    simp only [List.mem_cons, List.not_mem_nil, or_false, not_or] at h
    obtain ⟨h1, h2, h3⟩ := h
    simp only [Signal.from_raw]
    rw [if_neg h1, if_neg h2, if_neg h3]
  · intro h
    simp only [List.mem_cons, List.not_mem_nil, or_false, not_or] at h
    obtain ⟨h1, h2, h3, h4, h5, h6, h7, h8, h9, h10⟩ := h
    simp only [FrameSize.from_raw]
    rw [if_neg h1, if_neg h2, if_neg h3, if_neg h4, if_neg h5, if_neg h6,
      if_neg h7, if_neg h8, if_neg h9, if_neg h10]

/-- C4 witness: the four decoders reject the raw value 999. -/
theorem c4_unknown_raw_badarg_witness :
    Bandwidth.decode 999 "w" = .error (Error.bad_arg "w") ∧
    Application.from_raw 999 "w" = .error (Error.bad_arg "w") ∧
    Signal.from_raw 999 "w" = .error (Error.bad_arg "w") ∧
    FrameSize.from_raw 999 "w" = .error (Error.bad_arg "w") :=
  ⟨(c4_unknown_raw_badarg 999 "w").1 (by decide),
   (c4_unknown_raw_badarg 999 "w").2.1 (by decide),
   (c4_unknown_raw_badarg 999 "w").2.2.1 (by decide),
   (c4_unknown_raw_badarg 999 "w").2.2.2 (by decide)⟩

/-- C7 (amended): `check_len n` succeeds with `n` as the native `c_int`
exactly when `n ≤ c_int::MAX`, and otherwise panics (`none`) instead of
returning a typed error; every slice length reaches the native boundary
via `len` — `check_len` of the slice's length — except in
`Decoder::get_nb_samples`, which passes `packet.len() as i32`, a
wrapping cast that agrees with `check_len` on lengths that fit `c_int`
but never panics: the operation completes with the native call's
translated status for every packet length. -/
theorem c7_check_len (n : Nat) (slice : List Nat) (env : DecodeEnv)
    (d : Decoder) (packet : List Nat) :
    (n ≤ intMax ↔ check_len n = some (n : Int)) ∧
    (intMax < n → check_len n = none) ∧
    len slice = check_len slice.length ∧
    (n ≤ intMax → usize_as_i32 n = (n : Int)) ∧
    (0 ≤ env.opus_decoder_get_nb_samples packet (usize_as_i32 packet.length) →
      Decoder.get_nb_samples env d packet =
        .ok (env.opus_decoder_get_nb_samples packet
          (usize_as_i32 packet.length)).toNat) ∧
    (env.opus_decoder_get_nb_samples packet (usize_as_i32 packet.length) < 0 →
      Decoder.get_nb_samples env d packet =
        .error (Error.from_code "opus_decoder_get_nb_samples"
          (env.opus_decoder_get_nb_samples packet (usize_as_i32 packet.length)))) := by
  refine ⟨⟨fun h => by simp [check_len, h], fun h => ?_⟩, fun h => ?_, rfl,
    fun h => ?_, fun h => ?_, fun h => ?_⟩
  · by_cases hc : n ≤ intMax
    · exact hc
    · simp [check_len, hc] at h
  · simp [check_len, Nat.not_le.2 h]
  · have hn : n ≤ 2147483647 := h
    have hp31 : (2 : Nat) ^ 31 = 2147483648 := by norm_num
    have hp32 : (2 : Nat) ^ 32 = 4294967296 := by norm_num
    have hmod : n % 2 ^ 32 = n := Nat.mod_eq_of_lt (by rw [hp32]; omega)
    simp only [usize_as_i32, u32_as_i32, hmod]
    rw [if_pos (by rw [hp31]; omega)]
  · simp [Decoder.get_nb_samples, ffiResult, not_lt.2 h]
  · simp [Decoder.get_nb_samples, ffiResult, h]

/-- C7 witness: a fitting length converts (and the wrapping cast agrees
there), an overflowing one panics, and `get_nb_samples` completes with
the native result on a concrete packet. -/
theorem c7_check_len_witness :
    check_len 3 = some 3 ∧ check_len 2147483648 = none ∧
    usize_as_i32 3 = 3 ∧
    Decoder.get_nb_samples decodeStub { channels := .Mono } [1, 2] = .ok 960 := by
  have h := c7_check_len 3 [] decodeStub { channels := .Mono } [1, 2]
  have h2 := c7_check_len 2147483648 [] decodeStub { channels := .Mono } [1, 2]
  exact ⟨h.1.mp (by decide), h2.2.1 (by decide), h.2.2.2.1 (by decide),
    h.2.2.2.2.1 (by decide)⟩

/-- C7 counterexample: a slice of length 2^31 does not fit `c_int` —
`check_len` on it panics — yet `Decoder::get_nb_samples` on a packet of
that length neither panics nor converts the length through
`check_len`/`len`: it wraps it to the negative `c_int` −2^31 and
completes normally with the native call's result, so not every slice
length passed to the native boundary goes through the conversion. -/
theorem c7_check_len_counterexample :
    check_len (List.replicate (2 ^ 31) (0 : Nat)).length = none ∧
    usize_as_i32 (List.replicate (2 ^ 31) (0 : Nat)).length = -2147483648 ∧
    Decoder.get_nb_samples decodeStub { channels := .Mono }
      (List.replicate (2 ^ 31) 0) = .ok 960 := by
  refine ⟨?_, ?_, ?_⟩
  · norm_num [check_len, List.length_replicate, intMax]
  · norm_num [usize_as_i32, u32_as_i32, List.length_replicate]
  · rfl

/-- C10: the pure raw-integer encode/decode pairs round-trip:
`Bandwidth::from_int (b.raw()) = Some(b)`; `Signal::from_raw (s.raw())`
succeeds with `s`; `Bitrate::from_raw` is total, maps `OPUS_AUTO` to
`Auto`, `OPUS_BITRATE_MAX` to `Max` and any other integer `n` to
`Bits(n)`, so every `Bitrate` other than `Bits(OPUS_AUTO)` and
`Bits(OPUS_BITRATE_MAX)` round-trips. -/
theorem c10_enum_roundtrips :
    (∀ b : Bandwidth, Bandwidth.from_int b.raw = some b) ∧
    (∀ (s : Signal) (what : String), Signal.from_raw s.raw what = .ok s) ∧
    (∀ raw : Int, ∃ b : Bitrate, Bitrate.from_raw raw = .ok b) ∧
    Bitrate.from_raw OPUS_AUTO = .ok .Auto ∧
    Bitrate.from_raw OPUS_BITRATE_MAX = .ok .Max ∧
    (∀ n : Int, n ≠ OPUS_AUTO → n ≠ OPUS_BITRATE_MAX →
      Bitrate.from_raw n = .ok (.Bits n)) ∧
    (∀ b : Bitrate, b ≠ .Bits OPUS_AUTO → b ≠ .Bits OPUS_BITRATE_MAX →
      Bitrate.from_raw b.raw = .ok b) := by
  refine ⟨?_, ?_, ?_, by decide, by decide, ?_, ?_⟩
  · intro b
    cases b <;> decide
  · intro s what
    cases s <;> simp [Signal.from_raw, Signal.raw, OPUS_AUTO,
      OPUS_SIGNAL_VOICE, OPUS_SIGNAL_MUSIC]
  · intro raw
    exact ⟨_, rfl⟩
  · intro n h1 h2
    simp only [Bitrate.from_raw]
    rw [if_neg h1, if_neg h2]
  · intro b h1 h2
    cases b with
    | Bits n =>
      have hn1 : n ≠ OPUS_AUTO := fun hc => h1 (by rw [hc])
      have hn2 : n ≠ OPUS_BITRATE_MAX := fun hc => h2 (by rw [hc])
      simp only [Bitrate.raw, Bitrate.from_raw]
      rw [if_neg hn1, if_neg hn2]
    | Max => decide
    | Auto => decide

/-- C10 witness: the `Bits` round-trip at 64000. -/
theorem c10_enum_roundtrips_witness :
    Bitrate.from_raw (Bitrate.raw (.Bits 64000)) = .ok (.Bits 64000) :=
  c10_enum_roundtrips.2.2.2.2.2.2 (.Bits 64000) (by decide) (by decide)

/-- C2: over the spec-modelled faithful native parameter store, every
set/get accessor pair round-trips: `set(x)` followed by `get()` returns
`Ok(x)` for every value in the accessor's valid domain, including the
`Bitrate::Auto`/`Bitrate::Max`/`Bandwidth::Auto`/`Signal::Auto`
sentinels and `None` for `force_channels`. -/
theorem c2_ctl_roundtrip (s : CtlState) :
    (∀ n : Int, 0 < n → get_bitrate (set_bitrate s (.Bits n)) = .ok (.Bits n)) ∧
    get_bitrate (set_bitrate s .Auto) = .ok .Auto ∧
    get_bitrate (set_bitrate s .Max) = .ok .Max ∧
    (∀ v : Option Channels, get_force_channels (set_force_channels s v) = .ok v) ∧
    (∀ b : Bandwidth, get_max_bandwidth (set_max_bandwidth s b) = .ok b) ∧
    (∀ x : Signal, get_signal (set_signal s x) = .ok x) ∧
    (∀ a : Application, get_application (set_application s a) = .ok a) ∧
    (∀ f : FrameSize, get_expert_frame_duration (set_expert_frame_duration s f) = .ok f) ∧
    (∀ v : Int, get_complexity (set_complexity s v) = .ok v) ∧
    (∀ v : Int, get_packet_loss_perc (set_packet_loss_perc s v) = .ok v) ∧
    (∀ v : Int, get_lsb_depth (set_lsb_depth s v) = .ok v) ∧
    (∀ v : Int, get_gain (set_gain s v) = .ok v) ∧
    (∀ b : Bool, get_vbr (set_vbr s b) = .ok b) ∧
    (∀ b : Bool, get_vbr_constraint (set_vbr_constraint s b) = .ok b) ∧
    (∀ b : Bool, get_inband_fec (set_inband_fec s b) = .ok b) ∧
    (∀ b : Bool, get_dtx (set_dtx s b) = .ok b) ∧
    (∀ b : Bool, get_prediction_disabled (set_prediction_disabled s b) = .ok b) ∧
    (∀ b : Bool, get_phase_inversion_disabled (set_phase_inversion_disabled s b) = .ok b) := by
  refine ⟨?_, ?_, ?_, ?_, ?_, ?_, ?_, ?_, ?_, ?_, ?_, ?_, ?_, ?_, ?_, ?_, ?_, ?_⟩
  · intro n hn
    have h1 : n ≠ OPUS_AUTO := by show n ≠ -1000; omega
    have h2 : n ≠ OPUS_BITRATE_MAX := by show n ≠ -1; omega
    simp only [get_bitrate, set_bitrate, CtlState.load_store, Bitrate.raw,
      Bitrate.from_raw]
    rw [if_neg h1, if_neg h2]
  · simp [get_bitrate, set_bitrate, CtlState.load_store, Bitrate.raw,
      Bitrate.from_raw, OPUS_AUTO, OPUS_BITRATE_MAX]
  · simp [get_bitrate, set_bitrate, CtlState.load_store, Bitrate.raw,
      Bitrate.from_raw, OPUS_AUTO, OPUS_BITRATE_MAX]
  · intro v
    rcases v with _ | c
    · simp [get_force_channels, set_force_channels, CtlState.load_store]
    · cases c <;>
        simp [get_force_channels, set_force_channels, CtlState.load_store,
          OPUS_AUTO]
  · intro b
    cases b <;>
      simp [get_max_bandwidth, set_max_bandwidth, CtlState.load_store,
        Bandwidth.decode, Bandwidth.from_int, Bandwidth.raw, OPUS_AUTO,
        OPUS_BANDWIDTH_NARROWBAND, OPUS_BANDWIDTH_MEDIUMBAND,
        OPUS_BANDWIDTH_WIDEBAND, OPUS_BANDWIDTH_SUPERWIDEBAND,
        OPUS_BANDWIDTH_FULLBAND]
  · intro x
    cases x <;>
      simp [get_signal, set_signal, CtlState.load_store, Signal.from_raw,
        Signal.raw, OPUS_AUTO, OPUS_SIGNAL_VOICE, OPUS_SIGNAL_MUSIC]
  · intro a
    cases a <;>
      simp [get_application, set_application, CtlState.load_store,
        Application.from_raw, Application.raw]
  · intro f
    cases f <;>
      simp [get_expert_frame_duration, set_expert_frame_duration,
        CtlState.load_store, FrameSize.from_raw, FrameSize.raw,
        OPUS_FRAMESIZE_ARG, OPUS_FRAMESIZE_2_5_MS, OPUS_FRAMESIZE_5_MS,
        OPUS_FRAMESIZE_10_MS, OPUS_FRAMESIZE_20_MS, OPUS_FRAMESIZE_40_MS,
        OPUS_FRAMESIZE_60_MS, OPUS_FRAMESIZE_80_MS, OPUS_FRAMESIZE_100_MS,
        OPUS_FRAMESIZE_120_MS]
  · intro v
    simp [get_complexity, set_complexity, CtlState.load_store]
  · intro v
    simp [get_packet_loss_perc, set_packet_loss_perc, CtlState.load_store]
  · intro v
    simp [get_lsb_depth, set_lsb_depth, CtlState.load_store]
  · intro v
    simp [get_gain, set_gain, CtlState.load_store]
  · intro b
    cases b <;> simp [get_vbr, set_vbr, CtlState.load_store]
  · intro b
    cases b <;> simp [get_vbr_constraint, set_vbr_constraint, CtlState.load_store]
  · intro b
    cases b <;> simp [get_inband_fec, set_inband_fec, CtlState.load_store]
  · intro b
    cases b <;> simp [get_dtx, set_dtx, CtlState.load_store]
  · intro b
    cases b <;>
      simp [get_prediction_disabled, set_prediction_disabled, CtlState.load_store]
  · intro b
    cases b <;>
      simp [get_phase_inversion_disabled, set_phase_inversion_disabled,
        CtlState.load_store]

/-- C2 witness: three round-trips on the all-zero store, among them a
sentinel (`None` for forced channels) and an explicit bitrate. -/
theorem c2_ctl_roundtrip_witness :
    get_bitrate (set_bitrate ctlZero (.Bits 64000)) = .ok (.Bits 64000) ∧
    get_force_channels (set_force_channels ctlZero none) = .ok none ∧
    get_max_bandwidth (set_max_bandwidth ctlZero .Auto) = .ok .Auto :=
  ⟨(c2_ctl_roundtrip ctlZero).1 64000 (by decide),
   (c2_ctl_roundtrip ctlZero).2.2.2.1 none,
   (c2_ctl_roundtrip ctlZero).2.2.2.2.1 .Auto⟩

/-- C1 (amended): for a zero-length packet, `packet::get_bandwidth`,
`packet::get_nb_channels` and `packet::get_samples_per_frame` return a
`BadArg` error before any native call is made (their native-call trace
is empty), while `packet::get_nb_frames` and `packet::get_nb_samples`
do make the native call, passing the zero-length packet with length 0,
and surface its translated status — `BadArg` when the native call
reports `OPUS_BAD_ARG` as its contract specifies for an empty packet. -/
theorem c1_packet_empty (env : PacketEnv) (sample_rate : Nat) :
    packet.get_bandwidth env [] =
      (.error (Error.bad_arg "opus_packet_get_bandwidth"), []) ∧
    packet.get_nb_channels env [] =
      (.error (Error.bad_arg "opus_packet_get_nb_channels"), []) ∧
    packet.get_samples_per_frame env [] sample_rate =
      (.error (Error.bad_arg "opus_packet_get_samples_per_frame"), []) ∧
    Option.map Prod.snd (packet.get_nb_frames env []) =
      some ["opus_packet_get_nb_frames"] ∧
    Option.map Prod.snd (packet.get_nb_samples env [] sample_rate) =
      some ["opus_packet_get_nb_samples"] ∧
    (env.opus_packet_get_nb_frames [] 0 = OPUS_BAD_ARG →
      packet.get_nb_frames env [] =
        some (.error (Error.bad_arg "opus_packet_get_nb_frames"),
          ["opus_packet_get_nb_frames"])) ∧
    (env.opus_packet_get_nb_samples [] 0 (u32_as_i32 sample_rate) = OPUS_BAD_ARG →
      packet.get_nb_samples env [] sample_rate =
        some (.error (Error.bad_arg "opus_packet_get_nb_samples"),
          ["opus_packet_get_nb_samples"])) := by
  have h0 : check_len 0 = some 0 := by decide
  refine ⟨by simp [packet.get_bandwidth], by simp [packet.get_nb_channels],
    by simp [packet.get_samples_per_frame], ?_, ?_, ?_, ?_⟩
  · simp [packet.get_nb_frames, len, h0]
  · simp [packet.get_nb_samples, len, h0]
  · intro h
    simp [packet.get_nb_frames, len, h0, h, ffiResult, OPUS_BAD_ARG,
      Error.from_code, Error.bad_arg, ErrorCode.from_int]
  · intro h
    simp [packet.get_nb_samples, len, h0, h, ffiResult, OPUS_BAD_ARG,
      Error.from_code, Error.bad_arg, ErrorCode.from_int]

/-- C1 witness: the amended statement at the conforming concrete
oracle and sample rate 48000, discharging the native-contract
hypotheses there. -/
theorem c1_packet_empty_witness :
    packet.get_samples_per_frame packetStub [] 48000 =
      (.error (Error.bad_arg "opus_packet_get_samples_per_frame"), []) ∧
    packet.get_nb_frames packetStub [] =
      some (.error (Error.bad_arg "opus_packet_get_nb_frames"),
        ["opus_packet_get_nb_frames"]) :=
  ⟨(c1_packet_empty packetStub 48000).2.2.1,
   (c1_packet_empty packetStub 48000).2.2.2.2.2.1 (by decide)⟩

/-- C1 counterexample: on the zero-length packet,
`packet::get_nb_frames` makes a native call — its call trace is
`["opus_packet_get_nb_frames"]`, not empty — so it is not true that
every standalone packet query rejects a zero-length packet before any
native call is made. -/
theorem c1_packet_empty_counterexample :
    packet.get_nb_frames packetStub [] =
      some (.error (Error.bad_arg "opus_packet_get_nb_frames"),
        ["opus_packet_get_nb_frames"]) ∧
    ["opus_packet_get_nb_frames"] ≠ ([] : List String) := by
  exact ⟨by decide, by decide⟩

/-- C5: decoding an empty input slice takes the packet-loss-concealment
path: the native decode is called with the null packet pointer and
length 0, and — given the native contract that concealment with
`fec = true` yields a non-negative per-channel sample count — the
wrapper returns `Ok` with exactly that count. Covers
`Decoder::decode`, `Decoder::decode_float`, `MSDecoder::decode` and
`MSDecoder::decode_float` (the multistream handles on their non-zero
channel counts, where the frame-size division is defined). -/
theorem c5_plc_fec (env : DecodeEnv) (d : Decoder) (md : MSDecoder)
    (outputLen : Nat) (h : outputLen ≤ intMax) (hch : md.channels ≠ 0)
    (h1 : 0 ≤ env.opus_decode none 0 ((outputLen : Int) / d.channels.raw) 1)
    (h2 : 0 ≤ env.opus_decode_float none 0 ((outputLen : Int) / d.channels.raw) 1)
    (h3 : 0 ≤ env.opus_multistream_decode none 0 ((outputLen : Int) / md.channels) 1)
    (h4 : 0 ≤ env.opus_multistream_decode_float none 0 ((outputLen : Int) / md.channels) 1) :
    Decoder.decode env d [] outputLen true =
      some (.ok (env.opus_decode none 0 ((outputLen : Int) / d.channels.raw) 1).toNat,
        { packet := none, input_len := 0,
          frame_size := (outputLen : Int) / d.channels.raw, decode_fec := 1 }) ∧
    Decoder.decode_float env d [] outputLen true =
      some (.ok (env.opus_decode_float none 0 ((outputLen : Int) / d.channels.raw) 1).toNat,
        { packet := none, input_len := 0,
          frame_size := (outputLen : Int) / d.channels.raw, decode_fec := 1 }) ∧
    MSDecoder.decode env md [] outputLen true =
      some (.ok (env.opus_multistream_decode none 0 ((outputLen : Int) / md.channels) 1).toNat,
        { packet := none, input_len := 0,
          frame_size := (outputLen : Int) / md.channels, decode_fec := 1 }) ∧
    MSDecoder.decode_float env md [] outputLen true =
      some (.ok (env.opus_multistream_decode_float none 0 ((outputLen : Int) / md.channels) 1).toNat,
        { packet := none, input_len := 0,
          frame_size := (outputLen : Int) / md.channels, decode_fec := 1 }) := by
  have h0 : check_len 0 = some 0 := by decide
  have hc : check_len outputLen = some (outputLen : Int) := by simp [check_len, h]
  refine ⟨?_, ?_, ?_, ?_⟩
  · simp [Decoder.decode, len, h0, hc, ffiResult, not_lt.2 h1]
  · simp [Decoder.decode_float, len, h0, hc, ffiResult, not_lt.2 h2]
  · simp [MSDecoder.decode, len, h0, hc, hch, ffiResult, not_lt.2 h3]
  · simp [MSDecoder.decode_float, len, h0, hc, hch, ffiResult, not_lt.2 h4]

/-- C5 witness: the packet-loss path on a mono decoder and a
one-channel multistream decoder with a 5760 sample buffer yields
`Ok(5760)` (the concrete oracle fills the frame). -/
theorem c5_plc_fec_witness :
    Decoder.decode decodeStub { channels := .Mono } [] 5760 true =
      some (.ok 5760,
        { packet := none, input_len := 0, frame_size := 5760, decode_fec := 1 }) ∧
    MSDecoder.decode_float decodeStub { channels := 1 } [] 5760 true =
      some (.ok 5760,
        { packet := none, input_len := 0, frame_size := 5760, decode_fec := 1 }) := by
  have h := c5_plc_fec decodeStub { channels := .Mono } { channels := 1 } 5760
    (by decide) (by decide) (by decide) (by decide) (by decide) (by decide)
  exact ⟨h.1, h.2.2.2⟩

/-- C6 (amended): each constructor reports a negative native creation
code as `Err` with that code's classification; when the pointer is null
while the native error out-parameter still holds `OPUS_OK`, the four
codec constructors return `Err` with `ErrorCode::Unknown` (the
classification of code 0), and only `Repacketizer::new` reports
`AllocFail` for a null pointer. -/
theorem c6_constructor_failure (env : CreateEnv) (sr streams coupled : Nat)
    (ch : Channels) (mode : Application) (mapping : List Nat) :
    (∀ (pn : Bool) (e : Int),
      env.opus_encoder_create (u32_as_i32 sr) ch.raw mode.raw = (pn, e) → e < 0 →
      Encoder.new env sr ch mode =
        .error { function := "opus_encoder_create", code := ErrorCode.from_int e }) ∧
    (env.opus_encoder_create (u32_as_i32 sr) ch.raw mode.raw = (true, OPUS_OK) →
      Encoder.new env sr ch mode =
        .error { function := "opus_encoder_create", code := .Unknown }) ∧
    (∀ (pn : Bool) (e : Int),
      env.opus_decoder_create (u32_as_i32 sr) ch.raw = (pn, e) → e < 0 →
      Decoder.new env sr ch =
        .error { function := "opus_decoder_create", code := ErrorCode.from_int e }) ∧
    (env.opus_decoder_create (u32_as_i32 sr) ch.raw = (true, OPUS_OK) →
      Decoder.new env sr ch =
        .error { function := "opus_decoder_create", code := .Unknown }) ∧
    (∀ (pn : Bool) (e : Int), mapping.length ≤ intMax →
      env.opus_multistream_encoder_create (u32_as_i32 sr) (mapping.length : Int)
        (streams : Int) (coupled : Int) mapping mode.raw = (pn, e) → e < 0 →
      MSEncoder.new env sr streams coupled mapping mode =
        some (.error ⟨"opus_multistream_encoder_create", ErrorCode.from_int e⟩)) ∧
    (mapping.length ≤ intMax →
      env.opus_multistream_encoder_create (u32_as_i32 sr) (mapping.length : Int)
        (streams : Int) (coupled : Int) mapping mode.raw = (true, OPUS_OK) →
      MSEncoder.new env sr streams coupled mapping mode =
        some (.error ⟨"opus_multistream_encoder_create", .Unknown⟩)) ∧
    (∀ (pn : Bool) (e : Int), mapping.length ≤ intMax →
      env.opus_multistream_decoder_create (u32_as_i32 sr) (mapping.length : Int)
        (streams : Int) (coupled : Int) mapping = (pn, e) → e < 0 →
      MSDecoder.new env sr streams coupled mapping =
        some (.error ⟨"opus_multistream_decoder_create", ErrorCode.from_int e⟩)) ∧
    (mapping.length ≤ intMax →
      env.opus_multistream_decoder_create (u32_as_i32 sr) (mapping.length : Int)
        (streams : Int) (coupled : Int) mapping = (true, OPUS_OK) →
      MSDecoder.new env sr streams coupled mapping =
        some (.error ⟨"opus_multistream_decoder_create", .Unknown⟩)) ∧
    (env.opus_repacketizer_create = true →
      Repacketizer.new env =
        .error { function := "opus_repacketizer_create", code := .AllocFail }) := by
  refine ⟨?_, ?_, ?_, ?_, ?_, ?_, ?_, ?_, ?_⟩
  · intro pn e hEq hNeg
    have hne : e ≠ OPUS_OK := by show e ≠ 0; omega
    simp [Encoder.new, hEq, hne, Error.from_code]
  · intro hEq
    simp [Encoder.new, hEq, Error.from_code, ErrorCode.from_int, OPUS_OK, OPUS_BAD_ARG,
      OPUS_BUFFER_TOO_SMALL, OPUS_INTERNAL_ERROR, OPUS_INVALID_PACKET,
      OPUS_UNIMPLEMENTED, OPUS_INVALID_STATE, OPUS_ALLOC_FAIL]
  · intro pn e hEq hNeg
    have hne : e ≠ OPUS_OK := by show e ≠ 0; omega
    simp [Decoder.new, hEq, hne, Error.from_code]
  · intro hEq
    simp [Decoder.new, hEq, Error.from_code, ErrorCode.from_int, OPUS_OK, OPUS_BAD_ARG,
      OPUS_BUFFER_TOO_SMALL, OPUS_INTERNAL_ERROR, OPUS_INVALID_PACKET,
      OPUS_UNIMPLEMENTED, OPUS_INVALID_STATE, OPUS_ALLOC_FAIL]
  · intro pn e hLen hEq hNeg
    have hne : e ≠ OPUS_OK := by show e ≠ 0; omega
    have hml : len mapping = some (mapping.length : Int) := by
      simp [len, check_len, hLen]
    simp [MSEncoder.new, hml, hEq, hne, Error.from_code]
  · intro hLen hEq
    have hml : len mapping = some (mapping.length : Int) := by
      simp [len, check_len, hLen]
    simp [MSEncoder.new, hml, hEq, Error.from_code, ErrorCode.from_int, OPUS_OK,
      OPUS_BAD_ARG, OPUS_BUFFER_TOO_SMALL, OPUS_INTERNAL_ERROR,
      OPUS_INVALID_PACKET, OPUS_UNIMPLEMENTED, OPUS_INVALID_STATE,
      OPUS_ALLOC_FAIL]
  · intro pn e hLen hEq hNeg
    have hne : e ≠ OPUS_OK := by show e ≠ 0; omega
    have hml : len mapping = some (mapping.length : Int) := by
      simp [len, check_len, hLen]
    simp [MSDecoder.new, hml, hEq, hne, Error.from_code]
  · intro hLen hEq
    have hml : len mapping = some (mapping.length : Int) := by
      simp [len, check_len, hLen]
    simp [MSDecoder.new, hml, hEq, Error.from_code, ErrorCode.from_int, OPUS_OK,
      OPUS_BAD_ARG, OPUS_BUFFER_TOO_SMALL, OPUS_INTERNAL_ERROR,
      OPUS_INVALID_PACKET, OPUS_UNIMPLEMENTED, OPUS_INVALID_STATE,
      OPUS_ALLOC_FAIL]
  · intro hEq
    simp [Repacketizer.new, hEq, Error.from_code, ErrorCode.from_int, OPUS_OK,
      OPUS_BAD_ARG, OPUS_BUFFER_TOO_SMALL, OPUS_INTERNAL_ERROR,
      OPUS_INVALID_PACKET, OPUS_UNIMPLEMENTED, OPUS_INVALID_STATE,
      OPUS_ALLOC_FAIL]

/-- C6 witness: with a creation oracle returning a null pointer and an
untouched error out-parameter, `Encoder::new` fails with `Unknown` and
`Repacketizer::new` fails with `AllocFail`. -/
theorem c6_constructor_failure_witness :
    Encoder.new createNullStub 48000 .Mono .Voip =
      .error { function := "opus_encoder_create", code := .Unknown } ∧
    Repacketizer.new createNullStub =
      .error { function := "opus_repacketizer_create", code := .AllocFail } :=
  ⟨(c6_constructor_failure createNullStub 48000 0 0 .Mono .Voip []).2.1 (by decide),
   (c6_constructor_failure createNullStub 48000 0 0 .Mono .Voip []).2.2.2.2.2.2.2.2
     (by decide)⟩

/-- C6 counterexample: with a null pointer and the error out-parameter
left at `OPUS_OK`, `Encoder::new` returns `Err` with code `Unknown`,
not `AllocFail` as the claim states. -/
theorem c6_constructor_failure_counterexample :
    Encoder.new createNullStub 48000 .Mono .Voip =
      .error { function := "opus_encoder_create", code := .Unknown } ∧
    ErrorCode.Unknown ≠ ErrorCode.AllocFail := by
  exact ⟨by decide, by decide⟩

/-- C8 (amended): for `encode`/`encode_float` the per-channel frame
length passed to the native call is the input buffer's sample count
divided by the channel count, while for `decode`/`decode_float` it is
the output buffer's sample capacity divided by the channel count (the
raw input byte length is passed unchanged); on success the returned
value is the achieved length — bytes produced for encode, samples
decoded per channel for decode. -/
theorem c8_transform_lengths (eenv : EncodeEnv) (denv : DecodeEnv)
    (e : Encoder) (d : Decoder) (pcm : List Int) (pcmf : List F32)
    (input : List Nat) (outCap : Nat) (fec : Bool)
    (hp : pcm.length ≤ intMax) (hpf : pcmf.length ≤ intMax)
    (hi : input.length ≤ intMax) (ho : outCap ≤ intMax) :
    Option.map Prod.snd (Encoder.encode eenv e pcm outCap) =
      some { frame_size := (pcm.length : Int) / e.channels.raw,
             max_data_bytes := (outCap : Int) } ∧
    (0 ≤ eenv.opus_encode pcm ((pcm.length : Int) / e.channels.raw) (outCap : Int) →
      Option.map Prod.fst (Encoder.encode eenv e pcm outCap) =
        some (.ok (eenv.opus_encode pcm ((pcm.length : Int) / e.channels.raw)
          (outCap : Int)).toNat)) ∧
    Option.map Prod.snd (Encoder.encode_float eenv e pcmf outCap) =
      some { frame_size := (pcmf.length : Int) / e.channels.raw,
             max_data_bytes := (outCap : Int) } ∧
    (0 ≤ eenv.opus_encode_float pcmf ((pcmf.length : Int) / e.channels.raw) (outCap : Int) →
      Option.map Prod.fst (Encoder.encode_float eenv e pcmf outCap) =
        some (.ok (eenv.opus_encode_float pcmf ((pcmf.length : Int) / e.channels.raw)
          (outCap : Int)).toNat)) ∧
    Option.map Prod.snd (Decoder.decode denv d input outCap fec) =
      some { packet := if input.length = 0 then none else some input,
             input_len := (input.length : Int),
             frame_size := (outCap : Int) / d.channels.raw,
             decode_fec := if fec then 1 else 0 } ∧
    (0 ≤ denv.opus_decode (if input.length = 0 then none else some input)
        (input.length : Int) ((outCap : Int) / d.channels.raw) (if fec then 1 else 0) →
      Option.map Prod.fst (Decoder.decode denv d input outCap fec) =
        some (.ok (denv.opus_decode (if input.length = 0 then none else some input)
          (input.length : Int) ((outCap : Int) / d.channels.raw)
          (if fec then 1 else 0)).toNat)) ∧
    Option.map Prod.snd (Decoder.decode_float denv d input outCap fec) =
      some { packet := if input.length = 0 then none else some input,
             input_len := (input.length : Int),
             frame_size := (outCap : Int) / d.channels.raw,
             decode_fec := if fec then 1 else 0 } ∧
    (0 ≤ denv.opus_decode_float (if input.length = 0 then none else some input)
        (input.length : Int) ((outCap : Int) / d.channels.raw) (if fec then 1 else 0) →
      Option.map Prod.fst (Decoder.decode_float denv d input outCap fec) =
        some (.ok (denv.opus_decode_float (if input.length = 0 then none else some input)
          (input.length : Int) ((outCap : Int) / d.channels.raw)
          (if fec then 1 else 0)).toNat)) := by
  have hcp : check_len pcm.length = some (pcm.length : Int) := by
    simp [check_len, hp]
  have hcpf : check_len pcmf.length = some (pcmf.length : Int) := by
    simp [check_len, hpf]
  have hci : check_len input.length = some (input.length : Int) := by
    simp [check_len, hi]
  have hco : check_len outCap = some (outCap : Int) := by
    simp [check_len, ho]
  refine ⟨?_, ?_, ?_, ?_, ?_, ?_, ?_, ?_⟩
  · simp [Encoder.encode, len, hcp, hco]
  · intro h
    simp [Encoder.encode, len, hcp, hco, ffiResult, not_lt.2 h]
  · simp [Encoder.encode_float, len, hcpf, hco]
  · intro h
    simp [Encoder.encode_float, len, hcpf, hco, ffiResult, not_lt.2 h]
  · simp [Decoder.decode, len, hci, hco]
  · intro h
    simp only [List.length_eq_zero] at h
    simp [Decoder.decode, len, hci, hco, ffiResult, not_lt.2 h]
  · simp [Decoder.decode_float, len, hci, hco]
  · intro h
    simp only [List.length_eq_zero] at h
    simp [Decoder.decode_float, len, hci, hco, ffiResult, not_lt.2 h]

/-- C8 witness: the achieved lengths on concrete buffers — 3 bytes
produced by encode, 2 samples per channel by decode. -/
theorem c8_transform_lengths_witness :
    Option.map Prod.fst (Encoder.encode encodeStub { channels := .Mono } [0, 0] 4) =
      some (.ok 3) ∧
    Option.map Prod.fst (Decoder.decode decodeStub { channels := .Stereo } [1, 2] 4 true) =
      some (.ok 2) := by
  have h := c8_transform_lengths encodeStub decodeStub { channels := .Mono }
    { channels := .Stereo } [0, 0] [] [1, 2] 4 true (by decide) (by decide)
    (by decide) (by decide)
  exact ⟨h.2.1 (by decide), h.2.2.2.2.2.1 (by decide)⟩

/-- C8 counterexample: on a stereo decoder, decoding a 10-byte packet
into a 960-sample buffer passes frame capacity 480 = 960 / 2 to the
native call — not 10 / 2 = 5, the input buffer's count divided by the
channel count, as the claim states for decode. -/
theorem c8_transform_lengths_counterexample :
    Decoder.decode decodeStub { channels := .Stereo }
        [0, 0, 0, 0, 0, 0, 0, 0, 0, 0] 960 false =
      some (.ok 480,
        { packet := some [0, 0, 0, 0, 0, 0, 0, 0, 0, 0], input_len := 10,
          frame_size := 480, decode_fec := 0 }) ∧
    (10 : Int) / 2 ≠ 480 := by
  exact ⟨by decide, by decide⟩

/-- Folding the explicit sequence from a panicked accumulator stays
panicked. -/
theorem foldl_specStep_none (env : RpEnv) (l : List (List Nat)) :
    l.foldl (specStep env) none = none := by
  induction l with
  | nil => rfl
  | cons p rest ih => simpa [specStep] using ih

/-- Folding the explicit sequence from an errored accumulator keeps the
first error and its state. -/
theorem foldl_specStep_error (env : RpEnv) (l : List (List Nat)) (e : Error)
    (s : RpState) :
    l.foldl (specStep env) (some (.error e, s)) = some (.error e, s) := by
  induction l with
  | nil => rfl
  | cons p rest ih => simpa [specStep] using ih

/-- The `for` loop of `combine` is the fold of the explicit cat
sequence. -/
theorem catLoop_eq_foldl (env : RpEnv) (l : List (List Nat)) (s : RpState) :
    Repacketizer.catLoop env s l = l.foldl (specStep env) (some (.ok (), s)) := by
  induction l generalizing s with
  | nil => rfl
  | cons p rest ih =>
    rw [List.foldl_cons]
    have hstep : specStep env (some (.ok (), s)) p = RepacketizerState.cat env s p := rfl
    rw [hstep]
    rcases hcat : RepacketizerState.cat env s p with _ | ⟨res, s2⟩
    · simp only [Repacketizer.catLoop, hcat, foldl_specStep_none]
    · rcases res with er | ⟨⟩
      · simp only [Repacketizer.catLoop, hcat, foldl_specStep_error]
      · simp only [Repacketizer.catLoop, hcat, ih]

/-- C9: `Repacketizer::combine(packets, buffer)` returns the same
result and leaves the repacketizer in the same native state as the
explicit sequence `begin()`, then `cat(p)` for each packet in order
stopping at the first error, then `out(buffer)`. -/
theorem c9_combine_is_begin_cat_out (env : RpEnv) (input : List (List Nat))
    (outputLen : Nat) :
    Repacketizer.combine env input outputLen = beginCatOut env input outputLen := by
  unfold Repacketizer.combine beginCatOut
  rw [catLoop_eq_foldl]

end Opus
